import Mathlib

/-!
Shallow embedding of the widget initialization lifecycle implemented in
`src/main-widget.tsx` and of the error boundary implemented in
`src/components/ErrorBoundary.tsx`.

The asynchronous parts (the `Promise.race` between the mount attempt and the
timeout timer, the backoff sleeps) are embedded by giving every attempt an
explicit DOM/Mount-Provider behaviour and recording the observable actions
(failed attempts, backoff sleeps, callback invocations) as an event trace.
-/

namespace Widget

/-- JavaScript runtime values that can appear as the value of a configuration
key. -/
inductive JSVal where
  | str (s : String)
  | num (n : Int)
  | bool (b : Bool)
  | nullV
  deriving DecidableEq, Repr

/-- JavaScript truthiness of a value. -/
def JSVal.truthy : JSVal → Bool
  | .str s => s != ""
  | .num n => n != 0
  | .bool b => b
  | .nullV => false

/-- `typeof v === "string"`. -/
def JSVal.isString : JSVal → Bool
  | .str _ => true
  | _ => false

/-- `WidgetConfig` from `src/types/widget.ts`. Every recognized key is
optional (`none` models an absent key, which is falsy); `extra` models
unrecognized keys of the configuration object. -/
structure WidgetConfig where
  apiKey : Option JSVal := none
  theme : Option JSVal := none
  locale : Option JSVal := none
  debug : Option JSVal := none
  extra : List (String × JSVal) := []
  deriving DecidableEq, Repr

/-- Truthiness of an optional key: an absent key reads as `undefined`, which
is falsy. -/
def fieldTruthy : Option JSVal → Bool
  | none => false
  | some v => v.truthy

/-- The theme enum `['light', 'dark', 'default', 'premium']` of
`validateConfig` (`src/main-widget.tsx` line 190). -/
def themeValues : List JSVal :=
  [.str "light", .str "dark", .str "default", .str "premium"]

/-- `validateConfig` (`src/main-widget.tsx` lines 189-201). It throws on a
truthy `theme` outside the enum, a truthy non-string `apiKey` and a truthy
non-string `locale`, in that order; `debug` and unrecognized keys are never
inspected, and falsy key values skip their check. -/
def validateConfig (config : WidgetConfig) : Except String Unit :=
  if fieldTruthy config.theme && !(decide (config.theme.getD .nullV ∈ themeValues)) then
    .error "Invalid theme"
  else if fieldTruthy config.apiKey && !((config.apiKey.getD .nullV).isString) then
    .error "API key must be a string"
  else if fieldTruthy config.locale && !((config.locale.getD .nullV).isString) then
    .error "Locale must be a string"
  else
    .ok ()

/-- The error codes of `WidgetError` (`src/types/widget.ts`). -/
inductive ErrorCode where
  | CONTAINER_NOT_FOUND
  | INITIALIZATION_FAILED
  | RENDER_ERROR
  | TIMEOUT
  | VALIDATION_ERROR
  deriving DecidableEq, Repr

/-- `WidgetError` (`src/types/widget.ts`); `attempt` models the attempt
number recorded in the error's `context`. -/
structure WidgetError where
  code : ErrorCode
  message : String
  attempt : Option Nat := none
  deriving DecidableEq, Repr

/-- A host-page DOM element. `cloneDepth` counts how many `cloneNode` steps
separate it from the original element, so a clone is never equal to its
source. -/
structure DomElem where
  id : Nat
  cloneDepth : Nat := 0
  deriving DecidableEq, Repr

/-- `element.cloneNode(true)`. -/
def cloneNode (e : DomElem) : DomElem :=
  { e with cloneDepth := e.cloneDepth + 1 }

/-- Contents of the widget container: markup assigned through `innerHTML`, or
a list of child elements. -/
inductive ContainerContent where
  | html (s : String)
  | kids (es : List DomElem)
  deriving DecidableEq, Repr

/-- The `fallback` init option: a markup string or a DOM element. -/
inductive Fallback where
  | str (s : String)
  | elem (e : DomElem)
  deriving DecidableEq, Repr

/-- `InitOptions` (`src/types/widget.ts`) with the defaults destructured at
`src/main-widget.tsx` lines 32-38. The two callbacks are modelled by whether
they were supplied; their invocations are recorded as events. -/
structure InitOptions where
  retries : Nat := 3
  timeout : Nat := 5000
  fallback : Option Fallback := none
  hasOnError : Bool := false
  hasOnSuccess : Bool := false
  deriving Repr

/-- The closure state of a `WidgetInstance` (`src/main-widget.tsx` lines
98-124): the config captured when the attempt mounted and the `startTime`
taken just after `createRoot`. -/
structure Instance where
  config : WidgetConfig
  startTime : Nat := 0
  deriving DecidableEq, Repr

/-- Outcome of a mount whose container was found and attached: the instance
resolves, or the error boundary rejects with a render error. -/
inductive MountOutcome where
  | success
  | renderError (msg : String)
  deriving DecidableEq, Repr

/-- Behaviour of the host DOM and Mount Provider during one attempt:
`getElementById` returns null, the container is detached, the synchronous
setup throws, or a mount is started that settles with `outcome` at
`settleTime` (`none` = it never settles). -/
inductive MountBehavior where
  | noContainer
  | detached
  | throwsDuringSetup (msg : String)
  | mounts (outcome : MountOutcome) (settleTime : Option Nat)
  deriving DecidableEq, Repr

/-- Whether the mount promise settles strictly before the `timeout` timer
fires, so that it wins the `Promise.race` of line 146. -/
def settlesWithin : Option Nat → Nat → Bool
  | none, _ => false
  | some t, timeout => decide (t < timeout)

/-- One iteration of the retry loop body (`src/main-widget.tsx` lines
56-148): resolve the container (two `CONTAINER_NOT_FOUND` rejections), catch
a synchronous setup exception (`INITIALIZATION_FAILED`), then race the mount
against the timeout timer — the first settled outcome is honoured and the
other is discarded. -/
def attemptOnce (config : WidgetConfig) (timeout attempt : Nat)
    (b : MountBehavior) : Except WidgetError Instance :=
  match b with
  | .noContainer =>
      .error ⟨.CONTAINER_NOT_FOUND,
        "Element with ID my-widget-container not found", some attempt⟩
  | .detached =>
      .error ⟨.CONTAINER_NOT_FOUND,
        "Container element is not attached to DOM", some attempt⟩
  | .throwsDuringSetup msg =>
      .error ⟨.INITIALIZATION_FAILED, msg, some attempt⟩
  | .mounts outcome settleTime =>
      if settlesWithin settleTime timeout then
        match outcome with
        | .success => .ok ⟨config, 0⟩
        | .renderError msg => .error ⟨.RENDER_ERROR, msg, some attempt⟩
      else
        .error ⟨.TIMEOUT, "Widget initialization timeout", some attempt⟩

/-- The observable actions of one `initMyWidget` run. -/
inductive Event where
  | attemptFailed (attempt : Nat) (e : WidgetError)
  | backoff (ms : Nat)
  | calledOnError (e : WidgetError)
  | calledOnSuccess (inst : Instance)
  deriving DecidableEq, Repr

/-- The retry loop of `initMyWidget` (`src/main-widget.tsx` lines 55-159).
`fuel` is the number of attempts still allowed including the current one, so
`fuel = retries - attempt + 1` at every call and the source guard
`attempt < retries` is `0 < fuel` after peeling off the current attempt.
Returns the logged events, the instance on success, and the final
`lastError`. A failed attempt is logged, and a backoff of
`2 ^ attempt * 1000` milliseconds is awaited unless it was the last allowed
attempt. -/
def initLoop (config : WidgetConfig) (timeout : Nat) (env : Nat → MountBehavior) :
    (attempt fuel : Nat) → Option WidgetError →
      List Event × Option Instance × Option WidgetError
  | _, 0, lastError => ([], none, lastError)
  | attempt, fuel + 1, lastError =>
      match attemptOnce config timeout attempt (env attempt) with
      | .ok inst => ([], some inst, lastError)
      | .error e =>
          let rest := initLoop config timeout env (attempt + 1) fuel (some e)
          if 0 < fuel then
            (.attemptFailed attempt e :: .backoff (2 ^ attempt * 1000) :: rest.1,
              rest.2.1, rest.2.2)
          else
            (.attemptFailed attempt e :: rest.1, rest.2.1, rest.2.2)

/-- JavaScript truthiness of the destructured `fallback` value: an element
object is always truthy, a markup string only when non-empty. -/
def fallbackTruthy : Fallback → Bool
  | .str s => s != ""
  | .elem _ => true

/-- The fallback rendering after all retries failed (`src/main-widget.tsx`
lines 161-172). The block is guarded by `if (fallback)`, a truthiness check,
so an empty markup string is skipped. When the guard passes and the container
is found, a string fallback replaces the container's inner content and an
element fallback is cloned and appended after clearing; in every other case
the content is untouched. -/
def applyFallback (fb : Option Fallback) (c : Option ContainerContent) :
    Option ContainerContent :=
  match fb with
  | some f =>
      if fallbackTruthy f then
        match f, c with
        | .str s, some _ => some (.html s)
        | .elem e, some _ => some (.kids [cloneNode e])
        | _, none => none
      else c
  | none => c

/-- Result of one `initMyWidget` run: the logged events, the produced
instance (`none` models resolving to `null`), and the container content after
the run. -/
structure InitOutcome where
  events : List Event
  inst : Option Instance
  content : Option ContainerContent
  deriving DecidableEq, Repr

/-- `initMyWidget` (`src/main-widget.tsx` lines 28-179). `env` gives the
DOM/Mount-Provider behaviour seen by each attempt; `content` is the container
content the fallback code would observe after the loop (`none` = container
not found then). Validation failure short-circuits before the loop; on
success `onSuccess` is invoked with the instance; on exhaustion the fallback
is rendered and `onError` is invoked with the last recorded error, if any. -/
def initMyWidget (config : WidgetConfig) (options : InitOptions)
    (env : Nat → MountBehavior) (content : Option ContainerContent) : InitOutcome :=
  match validateConfig config with
  | .error msg =>
      { events :=
          if options.hasOnError then
            [.calledOnError ⟨.VALIDATION_ERROR, "Invalid configuration: " ++ msg, none⟩]
          else [],
        inst := none,
        content := content }
  | .ok _ =>
      match initLoop config options.timeout env 1 options.retries none with
      | (events, some inst, _) =>
          { events := events ++ if options.hasOnSuccess then [.calledOnSuccess inst] else [],
            inst := some inst,
            content := content }
      | (events, none, lastError) =>
          { events := events ++
              match lastError with
              | some e => if options.hasOnError then [.calledOnError e] else []
              | none => [],
            inst := none,
            content := applyFallback options.fallback content }

/-- The DOM and root state a live instance can observe and affect. -/
structure LiveState where
  containerAttached : Bool
  containerChildren : Nat
  rootMounted : Bool
  deriving DecidableEq, Repr

/-- `WidgetHealth` (`src/types/widget.ts`). -/
structure WidgetHealth where
  isHealthy : Bool
  errors : List WidgetError
  lastCheck : Nat
  uptime : Nat
  deriving DecidableEq, Repr

/-- `destroy` (`src/main-widget.tsx` lines 102-105): `root.unmount()` then
`container.innerHTML = ''`. -/
def Instance.destroy (_inst : Instance) (s : LiveState) : LiveState :=
  { s with rootMounted := false, containerChildren := 0 }

/-- `getHealth` (`src/main-widget.tsx` lines 118-123): a pure snapshot of the
current DOM state and clock; it mutates nothing. -/
def Instance.getHealth (inst : Instance) (s : LiveState) (now : Nat) : WidgetHealth :=
  { isHealthy := s.containerAttached && decide (0 < s.containerChildren),
    errors := [],
    lastCheck := now,
    uptime := now - inst.startTime }

/-- One key of the object spread `{...config, ...newConfig}`: the partial
wins when the key is present. -/
def spreadField (base p : Option JSVal) : Option JSVal :=
  match p with
  | some v => some v
  | none => base

/-- `{...config, ...newConfig}` (`src/main-widget.tsx` line 107). -/
def mergeConfig (base p : WidgetConfig) : WidgetConfig :=
  { apiKey := spreadField base.apiKey p.apiKey,
    theme := spreadField base.theme p.theme,
    locale := spreadField base.locale p.locale,
    debug := spreadField base.debug p.debug,
    extra := base.extra.filter (fun kv => !(p.extra.any (fun kv2 => kv2.1 == kv.1))) ++ p.extra }

/-- `update` (`src/main-widget.tsx` lines 106-117): computes the partial
merged over the closure's original `config` and re-renders it in the existing
root; the boundary's `onError` only logs, and nothing mutates the instance,
its `config`, or the DOM/root state. Returns the instance (unchanged), the
state (unchanged), the config handed to the render, and the console log
lines. -/
def Instance.update (inst : Instance) (s : LiveState) (p : WidgetConfig)
    (renderError : Option String) : Instance × LiveState × WidgetConfig × List String :=
  (inst, s, mergeConfig inst.config p,
    match renderError with
    | some m => ["Widget update error: " ++ m]
    | none => [])

/-- The behaviour of one host-supplied callback or hook: it returns normally
or throws. -/
inductive HookBehavior where
  | ok
  | throws (msg : String)
  deriving DecidableEq, Repr

/-- The callbacks and host-page globals `componentDidCatch` consults (`none`
= not supplied / not installed). -/
structure BoundaryEnv where
  hasWindow : Bool := true
  onError : Option HookBehavior := none
  sentry : Option HookBehavior := none
  reportWidgetError : Option HookBehavior := none
  deriving DecidableEq, Repr

/-- The calls `componentDidCatch` can make. -/
inductive BoundaryCall where
  | onErrorProp
  | sentryCapture
  | reportHook
  deriving DecidableEq, Repr

/-- Call an optional callee: skipped when absent, records the call when it
returns, propagates its exception when it throws. -/
def callHook (h : Option HookBehavior) (c : BoundaryCall) : Except String (List BoundaryCall) :=
  match h with
  | none => .ok []
  | some .ok => .ok [c]
  | some (.throws m) => .error m

/-- `componentDidCatch` (`src/components/ErrorBoundary.tsx` lines 60-86):
after logging, call the `onError` prop if supplied, then — when a window
exists — `window.Sentry.captureException` and `window.reportWidgetError` if
installed, in that order. None of the calls is guarded: a throwing callee
aborts the method and its exception propagates out of the boundary. Returns
the calls made, or the first escaping exception. -/
def componentDidCatch (env : BoundaryEnv) : Except String (List BoundaryCall) := do
  let c1 ← callHook env.onError .onErrorProp
  if env.hasWindow then
    let c2 ← callHook env.sentry .sentryCapture
    let c3 ← callHook env.reportWidgetError .reportHook
    return c1 ++ c2 ++ c3
  else
    return c1

/-- The configurations `validateConfig` rejects: a truthy out-of-enum
`theme`, a truthy non-string `apiKey`, or a truthy non-string `locale`. -/
def failsValidation (c : WidgetConfig) : Bool :=
  (fieldTruthy c.theme && !(decide (c.theme.getD .nullV ∈ themeValues))) ||
  (fieldTruthy c.apiKey && !((c.apiKey.getD .nullV).isString)) ||
  (fieldTruthy c.locale && !((c.locale.getD .nullV).isString))

/-- The error attempt `n` reports when `getElementById` returns null. -/
def containerNotFoundError (n : Nat) : WidgetError :=
  ⟨.CONTAINER_NOT_FOUND, "Element with ID my-widget-container not found", some n⟩

/-- The event trace of `fuel` consecutive attempts starting at attempt `a`
when the container never resolves: every attempt fails with
`containerNotFoundError`, a backoff of `2 ^ n * 1000` milliseconds separates
attempt `n` from attempt `n + 1`, and no backoff follows the last attempt. -/
def cnfTrace : (a fuel : Nat) → List Event
  | _, 0 => []
  | a, 1 => [.attemptFailed a (containerNotFoundError a)]
  | a, fuel + 2 =>
      .attemptFailed a (containerNotFoundError a) :: .backoff (2 ^ a * 1000) ::
        cnfTrace (a + 1) (fuel + 1)

/-- Attempt numbers of the failed attempts logged in a trace, in order. -/
def failedAttempts (evs : List Event) : List Nat :=
  evs.filterMap fun ev => match ev with | .attemptFailed n _ => some n | _ => none

/-- Error codes of the failed attempts logged in a trace, in order. -/
def failedCodes (evs : List Event) : List ErrorCode :=
  evs.filterMap fun ev => match ev with | .attemptFailed _ e => some e.code | _ => none

/-- The backoff delays logged in a trace, in milliseconds, in order. -/
def backoffs (evs : List Event) : List Nat :=
  evs.filterMap fun ev => match ev with | .backoff ms => some ms | _ => none

/-- The number of `onSuccess` invocations recorded in a trace. -/
def onSuccessCount (evs : List Event) : Nat :=
  evs.countP fun ev => match ev with | .calledOnSuccess _ => true | _ => false

/-- A behaviour whose attempt loses: no container, a detached container, a
setup exception, a render error, or a mount that does not settle before the
timer. -/
def behaviorFails (b : MountBehavior) (timeout : Nat) : Bool :=
  match b with
  | .mounts .success settleTime => !(settlesWithin settleTime timeout)
  | _ => true

/-- A mount that would succeed, but not before the timeout timer fires. -/
def lateSuccess (b : MountBehavior) (timeout : Nat) : Bool :=
  match b with
  | .mounts .success settleTime => !(settlesWithin settleTime timeout)
  | _ => false

/-- The calls `componentDidCatch` makes when every consulted callee returns
normally: the `onError` prop when supplied, then the installed window
hooks in order. -/
def installedCalls (env : BoundaryEnv) : List BoundaryCall :=
  (match env.onError with | some _ => [.onErrorProp] | none => []) ++
    if env.hasWindow then
      (match env.sentry with | some _ => [.sentryCapture] | none => []) ++
        (match env.reportWidgetError with | some _ => [.reportHook] | none => [])
    else []

/-- A callee that does not throw (or is absent). -/
def benignHook : Option HookBehavior → Bool
  | some (.throws _) => false
  | _ => true

/-- C1: counterexample. The config `{debug: "yes"}` gives the recognized key
`debug` a non-boolean value, yet `validateConfig` accepts it, a mount attempt
is made, and `onError` receives `CONTAINER_NOT_FOUND` rather than
`VALIDATION_ERROR` — contrary to the claim that a non-boolean `debug` makes
`initMyWidget` return null with `VALIDATION_ERROR` before any mount
attempt. -/
theorem c1_counterexample :
    validateConfig { debug := some (.str "yes") } = .ok () ∧
    ((initMyWidget { debug := some (.str "yes") } { retries := 1, hasOnError := true }
        (fun _ => .noContainer) none).events.any
      (fun ev => match ev with | .attemptFailed _ _ => true | _ => false)) = true ∧
    ((initMyWidget { debug := some (.str "yes") } { retries := 1, hasOnError := true }
        (fun _ => .noContainer) none).events.any
      (fun ev => match ev with
        | .calledOnError e => e.code == .VALIDATION_ERROR
        | _ => false)) = false :=
  ⟨rfl, rfl, rfl⟩

/-- C1 (amended): whenever `validateConfig` rejects the config — which
happens exactly when `failsValidation` holds: a truthy `theme` outside the
enum, a truthy non-string `apiKey`, or a truthy non-string `locale`; never
because of `debug`, unrecognized keys, or falsy values — `initMyWidget`
resolves to null having emitted only the `VALIDATION_ERROR` call to
`onError`: no mount attempt, no retry loop, and no fallback rendering. -/
theorem c1_amended (c : WidgetConfig) (opts : InitOptions) (env : Nat → MountBehavior)
    (content : Option ContainerContent) (msg : String)
    (herr : validateConfig c = .error msg) (hcb : opts.hasOnError = true) :
    initMyWidget c opts env content =
      { events := [.calledOnError ⟨.VALIDATION_ERROR, "Invalid configuration: " ++ msg, none⟩],
        inst := none,
        content := content } ∧
    (∀ d ex, validateConfig { c with debug := d, extra := ex } = .error msg) ∧
    failsValidation c = true ∧
    (∀ c2 : WidgetConfig, failsValidation c2 = false → validateConfig c2 = .ok ()) := by
  refine ⟨?_, fun d ex => herr, ?_, ?_⟩
  · simp [initMyWidget, herr, hcb]
  · cases h1 : (fieldTruthy c.theme && !(decide (c.theme.getD JSVal.nullV ∈ themeValues))) <;>
    cases h2 : (fieldTruthy c.apiKey && !((c.apiKey.getD JSVal.nullV).isString)) <;>
    cases h3 : (fieldTruthy c.locale && !((c.locale.getD JSVal.nullV).isString)) <;>
    simp_all [validateConfig, failsValidation]
  · intro c2 h
    simp only [failsValidation, Bool.or_eq_false_iff] at h
    obtain ⟨⟨ht, ha⟩, hl⟩ := h
    unfold validateConfig
    rw [if_neg (by simp [ht]), if_neg (by simp [ha]), if_neg (by simp [hl])]

/-- C1 (amended) witness: the theorem applied to the concrete config
`{theme: "neon"}`. -/
theorem c1_amended_witness :
    validateConfig { theme := some (.str "neon") } = .error "Invalid theme" ∧
    initMyWidget { theme := some (.str "neon") } { hasOnError := true }
        (fun _ => .noContainer) none =
      { events := [.calledOnError
          ⟨.VALIDATION_ERROR, "Invalid configuration: Invalid theme", none⟩],
        inst := none,
        content := none } :=
  ⟨rfl,
    (c1_amended { theme := some (.str "neon") } { hasOnError := true }
      (fun _ => .noContainer) none "Invalid theme" rfl rfl).1⟩

/-- C4: counterexample. With original config `{theme: light}`, after
`update(inst, {theme: dark})` a second `update(inst, {locale: fr})` renders
`{theme: light, locale: fr}` — the original config merged with the second
partial — not `{theme: dark, locale: fr}` as the claim's "a second update
sees the config produced by the first" requires; the instance also still
holds the original config, not the merged one. -/
theorem c4_counterexample :
    (Instance.update
        (Instance.update ⟨{ theme := some (.str "light") }, 0⟩
          ⟨true, 1, true⟩ { theme := some (.str "dark") } none).1
        ⟨true, 1, true⟩ { locale := some (.str "fr") } none).2.2.1 =
      mergeConfig { theme := some (.str "light") } { locale := some (.str "fr") } ∧
    (Instance.update
        (Instance.update ⟨{ theme := some (.str "light") }, 0⟩
          ⟨true, 1, true⟩ { theme := some (.str "dark") } none).1
        ⟨true, 1, true⟩ { locale := some (.str "fr") } none).2.2.1 ≠
      mergeConfig
        (mergeConfig { theme := some (.str "light") } { theme := some (.str "dark") })
        { locale := some (.str "fr") } ∧
    (Instance.update ⟨{ theme := some (.str "light") }, 0⟩
        ⟨true, 1, true⟩ { theme := some (.str "dark") } none).1.config =
      { theme := some (.str "light") } := by
  decide

/-- C4 (amended): `update` re-renders the existing root with the partial
merged over the instance's original mount-time config, and a render error is
only logged: the instance is not destroyed, the DOM/root state is unchanged,
and `instance.config` keeps the original config. The merged config is not
persisted anywhere, so a second update again merges over the original config
and does not see the first update's result. -/
theorem c4_amended (inst : Instance) (s s2 : LiveState) (p p2 : WidgetConfig)
    (err err2 : Option String) :
    (Instance.update inst s p err).1 = inst ∧
    (Instance.update inst s p err).2.1 = s ∧
    (Instance.update inst s p err).2.2.1 = mergeConfig inst.config p ∧
    (Instance.update (Instance.update inst s p err).1 s2 p2 err2).2.2.1 =
      mergeConfig inst.config p2 :=
  ⟨rfl, rfl, rfl, rfl⟩

/-- C6: `getHealth` is a pure snapshot of the DOM state and clock:
`isHealthy` is true exactly when the container is attached to the document
and has at least one rendered child, `lastCheck` is the clock at the call,
`uptime` is the elapsed time since the mount started, and the error list is
always empty. -/
theorem c6_getHealth (inst : Instance) (s : LiveState) (now : Nat) :
    ((Instance.getHealth inst s now).isHealthy = true ↔
      s.containerAttached = true ∧ 0 < s.containerChildren) ∧
    (Instance.getHealth inst s now).lastCheck = now ∧
    (Instance.getHealth inst s now).uptime = now - inst.startTime ∧
    (Instance.getHealth inst s now).errors = [] := by
  simp [Instance.getHealth]

/-- C7: `destroy` unmounts the root and clears the container, so any
`getHealth` call on the state it leaves behind reports unhealthy — the
container has no rendered children — and the root is no longer mounted. -/
theorem c7_destroy (inst inst2 : Instance) (s : LiveState) (now : Nat) :
    Instance.destroy inst s =
      { containerAttached := s.containerAttached,
        containerChildren := 0,
        rootMounted := false } ∧
    (Instance.getHealth inst2 (Instance.destroy inst s) now).isHealthy = false := by
  constructor
  · rfl
  · simp [Instance.destroy, Instance.getHealth]

/-- C8: merging the empty partial over any valid config is the identity:
`update(instance, {})` renders exactly the instance's current config. -/
theorem c8_update_empty (inst : Instance) (s : LiveState)
    (_hval : validateConfig inst.config = .ok ()) :
    (Instance.update inst s {} none).2.2.1 = inst.config := by
  show mergeConfig inst.config {} = inst.config
  cases hc : inst.config with
  | mk a t l d ex => simp [mergeConfig, spreadField]

/-- C8 witness: the theorem applied to a live instance holding the valid
config `{theme: "dark"}`. -/
theorem c8_witness :
    validateConfig { theme := some (.str "dark") } = .ok () ∧
    (Instance.update ⟨{ theme := some (.str "dark") }, 5⟩ ⟨true, 1, true⟩ {} none).2.2.1 =
      { theme := some (.str "dark") } :=
  ⟨rfl,
    c8_update_empty ⟨{ theme := some (.str "dark") }, 5⟩ ⟨true, 1, true⟩ rfl⟩

/-- C9: counterexample. With a benign `onError` prop, no Sentry, and an
installed `reportWidgetError` hook that throws, `componentDidCatch`
propagates the hook's exception out of the boundary — contrary to the claim
that a failure thrown by the hook is not re-raised. -/
theorem c9_counterexample :
    componentDidCatch
      { hasWindow := true, onError := some .ok, sentry := none,
        reportWidgetError := some (.throws "hook failed") } = .error "hook failed" := rfl

/-- C9 (amended): when every consulted callee returns normally,
`componentDidCatch` invokes the caller-supplied `onError` observer and
forwards the error once to each installed host hook, in order; but the calls
are unguarded, so an installed `reportWidgetError` hook that throws makes the
exception escape the boundary. -/
theorem c9_amended (env : BoundaryEnv)
    (h1 : benignHook env.onError = true) (h2 : benignHook env.sentry = true)
    (h3 : benignHook env.reportWidgetError = true) :
    componentDidCatch env = .ok (installedCalls env) ∧
    (∀ m, env.hasWindow = true →
      componentDidCatch { env with reportWidgetError := some (.throws m) } = .error m) := by
  obtain ⟨w, o, se, re⟩ := env
  cases w <;>
    rcases o with _ | o2 <;> (try cases o2) <;>
    rcases se with _ | se2 <;> (try cases se2) <;>
    rcases re with _ | re2 <;> (try cases re2) <;>
    first
      | exact ⟨rfl, fun m hw => rfl⟩
      | exact ⟨rfl, fun m hw => absurd hw Bool.false_ne_true⟩
      | simp_all [benignHook]

/-- C9 (amended) witness: the theorem applied to a host page with all three
callees installed and benign. -/
theorem c9_amended_witness :
    benignHook (some .ok) = true ∧
    componentDidCatch
      { hasWindow := true, onError := some .ok, sentry := some .ok,
        reportWidgetError := some .ok } =
      .ok [.onErrorProp, .sentryCapture, .reportHook] :=
  ⟨rfl,
    (c9_amended
      { hasWindow := true, onError := some .ok, sentry := some .ok,
        reportWidgetError := some .ok } rfl rfl rfl).1⟩

/-- When the container never resolves, the loop runs through its whole budget
producing the `cnfTrace` events, no instance, and the last attempt's error. -/
lemma initLoop_noContainer (config : WidgetConfig) (timeout : Nat) :
    ∀ (fuel a : Nat) (le : Option WidgetError),
      initLoop config timeout (fun _ => .noContainer) a (fuel + 1) le =
        (cnfTrace a (fuel + 1), none, some (containerNotFoundError (a + fuel))) := by
  intro fuel
  induction fuel with
  | zero =>
      intro a le
      simp [initLoop, attemptOnce, cnfTrace, containerNotFoundError]
  | succ m ih =>
      intro a le
      have ihm := ih (a + 1) (some (containerNotFoundError a))
      rw [initLoop.eq_2, show a + (m + 1) = (a + 1) + m by omega]
      simp only [attemptOnce, Nat.succ_pos, if_true, ite_true, cnfTrace,
        containerNotFoundError] at ihm ⊢
      rw [ihm]

/-- The failed attempts of a no-container trace are numbered consecutively
from the starting attempt. -/
lemma cnfTrace_failedAttempts :
    ∀ (fuel a : Nat), failedAttempts (cnfTrace a fuel) = (List.range fuel).map (· + a) := by
  intro fuel
  induction fuel with
  | zero => intro a; simp [cnfTrace, failedAttempts]
  | succ n ih =>
      intro a
      cases n with
      | zero => simp [cnfTrace, failedAttempts, List.range_succ]
      | succ m =>
          have ihm := ih (a + 1)
          rw [List.range_succ_eq_map]
          simp only [cnfTrace, failedAttempts, List.filterMap_cons, List.map_cons,
            List.map_map, Nat.zero_add] at ihm ⊢
          rw [ihm]
          congr 1
          apply List.map_congr_left
          intro i _
          simp only [Function.comp_apply]
          omega

/-- Every failed attempt of a no-container trace carries
`CONTAINER_NOT_FOUND`. -/
lemma cnfTrace_failedCodes :
    ∀ (fuel a : Nat),
      failedCodes (cnfTrace a fuel) = List.replicate fuel .CONTAINER_NOT_FOUND := by
  intro fuel
  induction fuel with
  | zero => intro a; simp [cnfTrace, failedCodes]
  | succ n ih =>
      intro a
      cases n with
      | zero => simp [cnfTrace, failedCodes, containerNotFoundError]
      | succ m =>
          have ihm := ih (a + 1)
          simp only [cnfTrace, failedCodes, List.filterMap_cons, containerNotFoundError,
            List.replicate] at ihm ⊢
          rw [ihm]

set_option maxRecDepth 10000 in
/-- The backoffs of a no-container trace are `2 ^ n * 1000` for the attempts
`n` before the last one. -/
lemma cnfTrace_backoffs :
    ∀ (fuel a : Nat),
      backoffs (cnfTrace a fuel) =
        (List.range (fuel - 1)).map (fun i => 2 ^ (i + a) * 1000) := by
  intro fuel
  induction fuel with
  | zero => intro a; simp [cnfTrace, backoffs]
  | succ n ih =>
      intro a
      cases n with
      | zero => simp [cnfTrace, backoffs]
      | succ m =>
          have ihm := ih (a + 1)
          rw [show (m + 1 + 1) - 1 = m + 1 by omega, List.range_succ_eq_map]
          simp only [cnfTrace, backoffs, List.filterMap_cons, List.map_cons, List.map_map,
            show (m + 1) - 1 = m by omega] at ihm ⊢
          rw [ihm]
          simp only [Nat.zero_add]
          congr 1
          apply List.map_congr_left
          intro i _
          simp only [Function.comp_apply]
          rw [show i + (a + 1) = i + 1 + a by omega]

/-- C2: with a container that never resolves and `retries = r ≥ 1`,
`initMyWidget` makes exactly the attempts `1..r`, each failing with
`CONTAINER_NOT_FOUND`, sleeps `2 ^ n * 1000` milliseconds between attempts
`n` and `n + 1` and never after the last one, then resolves to null after
invoking `onError` with the last recorded error, which is tagged
`CONTAINER_NOT_FOUND` at attempt `r`. -/
theorem c2_retry_exhaustion (config : WidgetConfig) (opts : InitOptions)
    (env : Nat → MountBehavior) (content : Option ContainerContent) (r : Nat)
    (hval : validateConfig config = .ok ()) (henv : ∀ n, env n = .noContainer)
    (hr : opts.retries = r) (h1 : 1 ≤ r) (hcb : opts.hasOnError = true) :
    initMyWidget config opts env content =
      { events := cnfTrace 1 r ++ [.calledOnError (containerNotFoundError r)],
        inst := none,
        content := applyFallback opts.fallback content } ∧
    failedAttempts (cnfTrace 1 r) = (List.range r).map (· + 1) ∧
    failedCodes (cnfTrace 1 r) = List.replicate r .CONTAINER_NOT_FOUND ∧
    backoffs (cnfTrace 1 r) = (List.range (r - 1)).map (fun i => 2 ^ (i + 1) * 1000) := by
  have henv2 : env = fun _ => .noContainer := funext henv
  subst henv2
  rcases r with _ | m
  · omega
  · refine ⟨?_, cnfTrace_failedAttempts (m + 1) 1, cnfTrace_failedCodes (m + 1) 1,
      cnfTrace_backoffs (m + 1) 1⟩
    have hloop := initLoop_noContainer config opts.timeout m 1 none
    rw [show 1 + m = m + 1 by omega] at hloop
    simp only [initMyWidget, hval, hr, hloop, hcb, if_true, ite_true]

/-- C2 witness: the theorem applied to the empty config, three retries, and a
container that never resolves. -/
theorem c2_witness :
    validateConfig {} = .ok () ∧
    initMyWidget {} { retries := 3, hasOnError := true } (fun _ => .noContainer) none =
      { events := cnfTrace 1 3 ++ [.calledOnError (containerNotFoundError 3)],
        inst := none,
        content := none } :=
  ⟨rfl,
    (c2_retry_exhaustion {} { retries := 3, hasOnError := true } (fun _ => .noContainer)
      none 3 rfl (fun _ => rfl) rfl (by omega) rfl).1⟩

/-- An instance produced by the retry loop is the resolved value of some
attempt's race: the loop never fabricates an instance and never returns a
value the race discarded. -/
lemma initLoop_some_inst (config : WidgetConfig) (timeout : Nat) (env : Nat → MountBehavior) :
    ∀ (fuel a : Nat) (le : Option WidgetError) (inst : Instance),
      (initLoop config timeout env a fuel le).2.1 = some inst →
        ∃ j, attemptOnce config timeout j (env j) = .ok inst := by
  intro fuel
  induction fuel with
  | zero =>
      intro a le inst h
      simp [initLoop] at h
  | succ n ih =>
      intro a le inst h
      rw [initLoop.eq_2] at h
      cases hA : attemptOnce config timeout a (env a) with
      | ok inst2 =>
          rw [hA] at h
          simp at h
          exact ⟨a, by rw [hA, h]⟩
      | error e =>
          rw [hA] at h
          by_cases hn : 0 < n <;> simp [hn] at h <;> exact ih (a + 1) (some e) inst h

/-- The retry loop itself never records an `onSuccess` invocation: the
success callback fires only once, after the loop returns. -/
lemma initLoop_onSuccessCount (config : WidgetConfig) (timeout : Nat)
    (env : Nat → MountBehavior) :
    ∀ (fuel a : Nat) (le : Option WidgetError),
      onSuccessCount (initLoop config timeout env a fuel le).1 = 0 := by
  intro fuel
  induction fuel with
  | zero => intro a le; simp [initLoop, onSuccessCount]
  | succ n ih =>
      intro a le
      rw [initLoop.eq_2]
      cases hA : attemptOnce config timeout a (env a) with
      | ok inst => simp [onSuccessCount]
      | error e =>
          by_cases hn : 0 < n <;>
            simp [hn, onSuccessCount, List.countP_cons] <;>
            simpa [onSuccessCount] using ih (a + 1) (some e)

/-- A behaviour that fails its race makes the attempt reject with some
error. -/
lemma attemptOnce_error_of_fails (config : WidgetConfig) (timeout n : Nat)
    (b : MountBehavior) (h : behaviorFails b timeout = true) :
    ∃ e, attemptOnce config timeout n b = .error e := by
  cases b with
  | noContainer => exact ⟨_, rfl⟩
  | detached => exact ⟨_, rfl⟩
  | throwsDuringSetup m => exact ⟨_, rfl⟩
  | mounts outcome st =>
      cases outcome with
      | success =>
          refine ⟨⟨.TIMEOUT, "Widget initialization timeout", some n⟩, ?_⟩
          simp [behaviorFails] at h
          simp [attemptOnce, h]
      | renderError m =>
          cases hs : settlesWithin st timeout
          · exact ⟨⟨.TIMEOUT, "Widget initialization timeout", some n⟩, by
              simp [attemptOnce, hs]⟩
          · exact ⟨⟨.RENDER_ERROR, m, some n⟩, by simp [attemptOnce, hs]⟩

/-- When every attempt's behaviour fails its race, the loop exhausts its
budget: no instance is produced and the last attempt's error is recorded. -/
lemma initLoop_exhausts (config : WidgetConfig) (timeout : Nat) (env : Nat → MountBehavior)
    (hfail : ∀ n, behaviorFails (env n) timeout = true) :
    ∀ (fuel a : Nat) (le : Option WidgetError), 0 < fuel →
      ∃ evs e, initLoop config timeout env a fuel le = (evs, none, some e) := by
  intro fuel
  induction fuel with
  | zero => intro a le h; omega
  | succ n ih =>
      intro a le _
      obtain ⟨e0, he0⟩ := attemptOnce_error_of_fails config timeout a (env a) (hfail a)
      rcases n with _ | m
      · refine ⟨[.attemptFailed a e0], e0, ?_⟩
        rw [initLoop.eq_2, he0]
        rfl
      · obtain ⟨evs, e, hrest⟩ := ih (a + 1) (some e0) (Nat.succ_pos m)
        refine ⟨.attemptFailed a e0 :: .backoff (2 ^ a * 1000) :: evs, e, ?_⟩
        rw [initLoop.eq_2, he0]
        simp [hrest]

/-- C3: an attempt whose mount does not settle within the timeout fails with
`TIMEOUT` even though the mount would eventually succeed; and when every
attempt is such a late success, the run resolves to null — the abandoned
mounts' late results never become the returned instance — and `onSuccess` is
never invoked, so in particular never a second time. -/
theorem c3_timeout_discards_late_success (config : WidgetConfig) (opts : InitOptions)
    (env : Nat → MountBehavior) (content : Option ContainerContent)
    (hlate : ∀ n, lateSuccess (env n) opts.timeout = true) :
    (∀ k, attemptOnce config opts.timeout k (env k) =
      .error ⟨.TIMEOUT, "Widget initialization timeout", some k⟩) ∧
    (initMyWidget config opts env content).inst = none ∧
    onSuccessCount (initMyWidget config opts env content).events = 0 := by
  have hTO : ∀ k, attemptOnce config opts.timeout k (env k) =
      .error ⟨.TIMEOUT, "Widget initialization timeout", some k⟩ := by
    intro k
    have h := hlate k
    cases hk : env k with
    | noContainer => rw [hk] at h; simp [lateSuccess] at h
    | detached => rw [hk] at h; simp [lateSuccess] at h
    | throwsDuringSetup m => rw [hk] at h; simp [lateSuccess] at h
    | mounts outcome st =>
        cases outcome with
        | success =>
            rw [hk] at h
            simp [lateSuccess] at h
            simp [attemptOnce, h]
        | renderError m => rw [hk] at h; simp [lateSuccess] at h
  refine ⟨hTO, ?_⟩
  cases hv : validateConfig config with
  | error msg =>
      by_cases hcb : opts.hasOnError <;>
        simp [initMyWidget, hv, hcb, onSuccessCount]
  | ok u =>
      rcases hL : initLoop config opts.timeout env 1 opts.retries none with ⟨evs, oinst, olast⟩
      have hnone : oinst = none := by
        cases hoi : oinst with
        | none => rfl
        | some inst =>
            have hproj : (initLoop config opts.timeout env 1 opts.retries none).2.1 =
                some inst := by rw [hL, hoi]
            obtain ⟨j, hj⟩ :=
              initLoop_some_inst config opts.timeout env opts.retries 1 none inst hproj
            rw [hTO j] at hj
            cases hj
      subst hnone
      have hcount : onSuccessCount evs = 0 := by
        have hc := initLoop_onSuccessCount config opts.timeout env opts.retries 1 none
        rw [hL] at hc
        exact hc
      constructor
      · simp [initMyWidget, hv, hL]
      · cases olast with
        | none =>
            simp [initMyWidget, hv, hL, onSuccessCount, List.countP_append]
            simpa [onSuccessCount] using hcount
        | some e =>
            by_cases hcb : opts.hasOnError <;>
              simp [initMyWidget, hv, hL, hcb, onSuccessCount, List.countP_append,
                List.countP_cons] <;>
              simpa [onSuccessCount] using hcount

/-- C3 witness: the theorem applied to a mount that always succeeds at time
50, against a 10 millisecond timeout. -/
theorem c3_witness :
    lateSuccess (MountBehavior.mounts .success (some 50)) 10 = true ∧
    attemptOnce {} 10 1 (MountBehavior.mounts .success (some 50)) =
      .error ⟨.TIMEOUT, "Widget initialization timeout", some 1⟩ ∧
    (initMyWidget {} { timeout := 10 } (fun _ => .mounts .success (some 50)) none).inst =
      none :=
  ⟨rfl,
    (c3_timeout_discards_late_success {} { timeout := 10 }
      (fun _ => .mounts .success (some 50)) none (fun _ => rfl)).1 1,
    (c3_timeout_discards_late_success {} { timeout := 10 }
      (fun _ => .mounts .success (some 50)) none (fun _ => rfl)).2.1⟩

/-- C5: counterexample. With one exhausted attempt and the supplied fallback
`""` (the empty markup string), the `if (fallback)` truthiness guard of
`src/main-widget.tsx` line 162 skips the fallback block: the container is
left untouched and its content does not become the empty markup — contrary to
the claim that a supplied string fallback replaces the container's inner
content. -/
theorem c5_counterexample :
    (initMyWidget {} { retries := 1, hasOnError := true, fallback := some (.str "") }
        (fun _ => .noContainer) (some (.kids []))).content = some (.kids []) ∧
    (initMyWidget {} { retries := 1, hasOnError := true, fallback := some (.str "") }
        (fun _ => .noContainer) (some (.kids []))).content ≠ some (.html "") :=
  ⟨rfl, by decide⟩

/-- C5 (amended): when every attempt fails and the budget `retries ≥ 1` is
exhausted, `initMyWidget` resolves to null, invokes `onError` with the loop's
last recorded error, and renders a supplied truthy fallback into the
container found at that point: a non-empty string fallback replaces the inner
content, an element fallback is cloned — the appended node differs from the
caller's element — and appended after clearing; an empty-string fallback is
falsy and skipped, and without a fallback the content is likewise
untouched. -/
theorem c5_fallback_on_exhaustion (config : WidgetConfig) (opts : InitOptions)
    (env : Nat → MountBehavior) (content : Option ContainerContent) (c0 : ContainerContent)
    (hval : validateConfig config = .ok ())
    (hfail : ∀ n, behaviorFails (env n) opts.timeout = true)
    (hr : 1 ≤ opts.retries) (hcb : opts.hasOnError = true)
    (hcont : content = some c0) :
    ∃ evs le,
      initLoop config opts.timeout env 1 opts.retries none = (evs, none, some le) ∧
      initMyWidget config opts env content =
        { events := evs ++ [.calledOnError le],
          inst := none,
          content := applyFallback opts.fallback content } ∧
      (∀ s, s ≠ "" → opts.fallback = some (.str s) →
        (initMyWidget config opts env content).content = some (.html s)) ∧
      (opts.fallback = some (.str "") →
        (initMyWidget config opts env content).content = content) ∧
      (∀ el, opts.fallback = some (.elem el) →
        (initMyWidget config opts env content).content = some (.kids [cloneNode el]) ∧
          cloneNode el ≠ el) ∧
      (opts.fallback = none → (initMyWidget config opts env content).content = content) := by
  obtain ⟨evs, le, hL⟩ :=
    initLoop_exhausts config opts.timeout env hfail opts.retries 1 none (by omega)
  refine ⟨evs, le, hL, ?_, ?_, ?_, ?_, ?_⟩
  · simp [initMyWidget, hval, hL, hcb]
  · intro s hne hs
    have hb : (s != "") = true := by simpa using hne
    simp [initMyWidget, hval, hL, hcb, hs, hcont, applyFallback, fallbackTruthy, hb]
  · intro hs
    simp [initMyWidget, hval, hL, hcb, hs, applyFallback, fallbackTruthy]
  · intro el hel
    refine ⟨?_, ?_⟩
    · simp [initMyWidget, hval, hL, hcb, hel, hcont, applyFallback, fallbackTruthy]
    · intro hEq
      have hd := congrArg DomElem.cloneDepth hEq
      simp [cloneNode] at hd
  · intro hnone
    simp [initMyWidget, hval, hL, hcb, hnone, applyFallback]

/-- C5 (amended) witness: the theorem applied to one exhausted attempt with
the non-empty string fallback `"unavailable"`; the container content becomes
the fallback markup. -/
theorem c5_witness :
    validateConfig {} = .ok () ∧
    (∀ n : Nat, behaviorFails ((fun _ => MountBehavior.noContainer) n) 5000 = true) ∧
    (initMyWidget {}
        { retries := 1, hasOnError := true, fallback := some (.str "unavailable") }
        (fun _ => .noContainer) (some (.kids []))).content = some (.html "unavailable") := by
  have H := c5_fallback_on_exhaustion {}
    { retries := 1, hasOnError := true, fallback := some (.str "unavailable") }
    (fun _ => .noContainer) (some (.kids [])) (.kids []) rfl (fun _ => rfl) Nat.le.refl rfl rfl
  obtain ⟨evs, le, hL, hmain, hstr, hempty, helem, hnone⟩ := H
  exact ⟨rfl, fun _ => rfl, hstr "unavailable" (by decide) rfl⟩

/-- C10: counterexample. With a valid config, `retries = 0` and the supplied
fallback `""` (the empty markup string), the `if (fallback)` truthiness guard
skips the fallback block: the container is left untouched and nothing is
rendered into it — contrary to the claim that a supplied fallback is still
rendered into the container. -/
theorem c10_counterexample :
    (initMyWidget {} { retries := 0, fallback := some (.str "") } (fun _ => .noContainer)
        (some (.kids []))).content = some (.kids []) ∧
    (initMyWidget {} { retries := 0, fallback := some (.str "") } (fun _ => .noContainer)
        (some (.kids []))).content ≠ some (.html "") :=
  ⟨rfl, by decide⟩

/-- C10 (amended): with a valid config and `retries = 0` the loop body never
runs — no attempt is made, no error is recorded, and neither `onError` nor
`onSuccess` is ever invoked — yet a supplied truthy fallback (a non-empty
string, or an element) is still rendered into the container, an empty-string
fallback is falsy and skipped, and the call resolves to null. -/
theorem c10_zero_retries (config : WidgetConfig) (opts : InitOptions)
    (env : Nat → MountBehavior) (content : Option ContainerContent)
    (hval : validateConfig config = .ok ()) (hr : opts.retries = 0) :
    initLoop config opts.timeout env 1 opts.retries none = ([], none, none) ∧
    initMyWidget config opts env content =
      { events := [], inst := none, content := applyFallback opts.fallback content } ∧
    (∀ s c0, s ≠ "" → opts.fallback = some (.str s) → content = some c0 →
      (initMyWidget config opts env content).content = some (.html s)) ∧
    (opts.fallback = some (.str "") →
      (initMyWidget config opts env content).content = content) ∧
    (∀ el c0, opts.fallback = some (.elem el) → content = some c0 →
      (initMyWidget config opts env content).content = some (.kids [cloneNode el])) := by
  have hL : initLoop config opts.timeout env 1 opts.retries none = ([], none, none) := by
    rw [hr]
    rfl
  refine ⟨hL, ?_, ?_, ?_, ?_⟩
  · simp [initMyWidget, hval, hL]
  · intro s c0 hne hs hc
    have hb : (s != "") = true := by simpa using hne
    simp [initMyWidget, hval, hL, hs, hc, applyFallback, fallbackTruthy, hb]
  · intro hs
    simp [initMyWidget, hval, hL, hs, applyFallback, fallbackTruthy]
  · intro el c0 hel hc
    simp [initMyWidget, hval, hL, hel, hc, applyFallback, fallbackTruthy]

/-- C10 (amended) witness: the theorem applied to zero retries with the
non-empty string fallback `"fb"`: no events at all, null result, fallback
rendered. -/
theorem c10_witness :
    validateConfig {} = .ok () ∧
    initMyWidget {} { retries := 0, fallback := some (.str "fb") } (fun _ => .noContainer)
        (some (.kids [])) =
      { events := [], inst := none, content := some (.html "fb") } := by
  have H := c10_zero_retries {} { retries := 0, fallback := some (.str "fb") }
    (fun _ => .noContainer) (some (.kids [])) rfl rfl
  exact ⟨rfl, H.2.1⟩

end Widget
